import Mathlib

/-!
Shallow embedding of the streaming client of `src/frontend/src/hooks/useWebSocket.tsx`
(the `WebSocketProvider` React component) together with the small slice of
`src/frontend/src/hooks/useAuth.tsx` needed to relate connection opening to the
session provider.

Modelling conventions:
* The provider's React state and refs become the fields of `ClientState`:
  `isConnected` (useState), `messages` (useState), `wsRef` (useRef), and
  `reconnectTimeoutRef` (useRef, modelled as `reconnectTimeout`).
* A browser `WebSocket` object is modelled by `Socket`: a fresh identifier
  (`id`, drawn from the `nextId` supply, so distinct `new WebSocket(...)`
  calls yield distinct sockets), the `agentId` captured by the handler
  closures, the `url` passed to the constructor, and its `readyState`.
* Each event-handler closure registered by `connect` becomes a function on
  `ClientState`; the values the closure captured (`ws` identity, `agentId`)
  are passed as arguments.  The browser updates `readyState` before firing
  `open`/`close`, which the model folds into the handler functions.
* `setTimeout`/`clearTimeout`: the pending reconnect timer lives in
  `reconnectTimeout`.  In the source, the timer callback does not null the
  ref after firing, so a fired timer leaves a stale handle behind; the
  `fired` flag records this.
* Observable side effects with no state in the source get explicit
  observation fields: `sent` (frames written to the wire by `ws.send`),
  `warnings` (calls to `console.warn`), `consoleErrors` (calls to
  `console.error`).  Inbound frames are `Frame`s: either a payload that
  `JSON.parse` decodes to a `WebSocketMessage`, or a payload on which it
  throws.
-/

/-- The `WebSocketMessage` interface: `{ type: string; data: any; timestamp: string }`.
The opaque `data` payload is modelled as a string. -/
structure WebSocketMessage where
  type : String
  data : String
  timestamp : String
deriving DecidableEq

/-- The four `WebSocket.readyState` constants of the browser API. -/
inductive ReadyState where
  | CONNECTING
  | OPEN
  | CLOSING
  | CLOSED
deriving DecidableEq

/-- A browser `WebSocket` object as far as the hook observes it. -/
structure Socket where
  id : Nat
  agentId : Option String
  url : String
  readyState : ReadyState
deriving DecidableEq

/-- A pending `setTimeout` handle stored in `reconnectTimeoutRef`: the
`agentId` captured by the `() => connect(agentId)` callback, and whether the
timer has already fired (the source never nulls the ref from inside the
callback, so a fired handle can linger). -/
structure TimerRef where
  agentId : Option String
  fired : Bool
deriving DecidableEq

/-- The full state of one mounted `WebSocketProvider`. -/
structure ClientState where
  isConnected : Bool
  messages : List WebSocketMessage
  wsRef : Option Socket
  reconnectTimeout : Option TimerRef
  envWsUrl : Option String
  nextId : Nat
  sent : List WebSocketMessage
  warnings : Nat
  consoleErrors : Nat
deriving DecidableEq

/-- The provider's initial state: `isConnected = false`, `messages = []`,
both refs null.  `envWsUrl` is the ambient `process.env.REACT_APP_WS_URL`. -/
def initState (env : Option String) : ClientState :=
  { isConnected := false
    messages := []
    wsRef := none
    reconnectTimeout := none
    envWsUrl := env
    nextId := 0
    sent := []
    warnings := 0
    consoleErrors := 0 }

/-- The base address: `process.env.REACT_APP_WS_URL || 'ws://localhost:5000'`. -/
def wsBase (env : Option String) : String :=
  env.getD "ws://localhost:5000"

/-- The `wsUrl` computation in `connect`: per-agent path when an `agentId` is
given, global path otherwise, both under the configured base address. -/
def wsUrl (env : Option String) (agentId : Option String) : String :=
  match agentId with
  | some aid => wsBase env ++ "/api/agents/" ++ aid ++ "/ws"
  | none => wsBase env ++ "/api/ws"

/-- `connect(agentId?)`: if `wsRef.current?.readyState === WebSocket.OPEN`,
return immediately; otherwise construct `new WebSocket(wsUrl)` (a fresh
socket in `CONNECTING` state), register the handlers, and store it in
`wsRef`.  Note the guard checks only `OPEN`, not `CONNECTING`. -/
def connect (agentId : Option String) (s : ClientState) : ClientState :=
  if s.wsRef.map Socket.readyState = some ReadyState.OPEN then
    s
  else
    { s with
      wsRef := some
        { id := s.nextId
          agentId := agentId
          url := wsUrl s.envWsUrl agentId
          readyState := ReadyState.CONNECTING }
      nextId := s.nextId + 1 }

/-- The `ws.onopen` handler of the socket with identifier `sockId`: the
browser first moves that socket to `OPEN`, then the handler runs
`setIsConnected(true)` and clears any pending reconnect timer. -/
def onopen (sockId : Nat) (s : ClientState) : ClientState :=
  let s1 := { s with
    wsRef := s.wsRef.map fun (w : Socket) =>
      if w.id = sockId then { w with readyState := ReadyState.OPEN } else w }
  { s1 with isConnected := true, reconnectTimeout := none }

/-- An inbound wire frame: either one that `JSON.parse` decodes to a
`WebSocketMessage`, or a malformed payload on which it throws. -/
inductive Frame where
  | good (m : WebSocketMessage)
  | bad (raw : String)
deriving DecidableEq

/-- The decode step of `ws.onmessage`: `JSON.parse(event.data)`. -/
def parseFrame : Frame → Option WebSocketMessage
  | Frame.good m => some m
  | Frame.bad _ => none

/-- The `ws.onmessage` handler: on a decodable frame, append the message to
`messages` (`setMessages(prev => [...prev, message])`); on a decode failure,
only `console.error` runs. -/
def onmessage (f : Frame) (s : ClientState) : ClientState :=
  match parseFrame f with
  | some m => { s with messages := s.messages ++ [m] }
  | none => { s with consoleErrors := s.consoleErrors + 1 }

/-- Deliver a sequence of inbound frames in order. -/
def processFrames (fs : List Frame) (s : ClientState) : ClientState :=
  fs.foldl (fun st f => onmessage f st) s

/-- The `ws.onclose` handler of the socket with identifier `sockId`, whose
closure captured `closureAgentId`: the browser first moves that socket to
`CLOSED`, then the handler runs `setIsConnected(false)` and, if
`reconnectTimeoutRef.current` is null, schedules `setTimeout(() =>
connect(agentId), 5000)` and stores its handle in the ref. -/
def onclose (sockId : Nat) (closureAgentId : Option String) (s : ClientState) : ClientState :=
  let s1 := { s with
    wsRef := s.wsRef.map fun (w : Socket) =>
      if w.id = sockId then { w with readyState := ReadyState.CLOSED } else w
    isConnected := false }
  match s1.reconnectTimeout with
  | some _ => s1
  | none => { s1 with reconnectTimeout := some { agentId := closureAgentId, fired := false } }

/-- The `ws.onerror` handler: `console.error` and `setIsConnected(false)`. -/
def onerror (s : ClientState) : ClientState :=
  { s with isConnected := false, consoleErrors := s.consoleErrors + 1 }

/-- The reconnect timer firing: the `() => connect(agentId)` callback runs.
The source callback does not null `reconnectTimeoutRef.current`, so the
handle stays in the ref, marked fired; a fired or cancelled timer never
fires again. -/
def timerFire (s : ClientState) : ClientState :=
  match s.reconnectTimeout with
  | none => s
  | some t =>
      if t.fired then s
      else connect t.agentId { s with reconnectTimeout := some { t with fired := true } }

/-- `disconnect()`: `clearTimeout` on any pending reconnect timer and null
the ref, `close()` the socket and null `wsRef`, `setIsConnected(false)`.
The call to `close()` makes the browser deliver a `close` event for that
socket afterwards; the model expresses that by applying `onclose` to the
resulting state in the theorems about late events. -/
def disconnect (s : ClientState) : ClientState :=
  { s with reconnectTimeout := none, wsRef := none, isConnected := false }

/-- `sendMessage(message)`: if `wsRef.current?.readyState === WebSocket.OPEN`,
`ws.send(JSON.stringify(message))`; otherwise only `console.warn` runs and
the message is gone. -/
def sendMessage (m : WebSocketMessage) (s : ClientState) : ClientState :=
  if s.wsRef.map Socket.readyState = some ReadyState.OPEN then
    { s with sent := s.sent ++ [m] }
  else
    { s with warnings := s.warnings + 1 }

/-- The slice of `useAuth.tsx` the claims need: the session provider's
`user` state; `isAuthenticated = !!user`. -/
structure AuthState where
  user : Option String
deriving DecidableEq

/-- `isAuthenticated` from `AuthProvider`. -/
def isAuthenticated (a : AuthState) : Bool :=
  a.user.isSome

/-- An application with both providers mounted.  In the source,
`WebSocketProvider` never reads the auth context (no `useAuth` import and no
token is passed to `new WebSocket`). -/
structure AppState where
  auth : AuthState
  wsc : ClientState
deriving DecidableEq

/-- Invoking `connect` in the composed application: only the web-socket
slice changes, exactly as `connect` dictates, whatever the auth state. -/
def connectApp (agentId : Option String) (st : AppState) : AppState :=
  { st with wsc := connect agentId st.wsc }

/-- A concrete sample message fixture used by several concrete runs. -/
def sampleMsg (d : String) : WebSocketMessage :=
  { type := "log", data := d, timestamp := "2024-01-01T00:00:00Z" }

/- ### Helper lemmas -/

theorem processFrames_nil (s : ClientState) : processFrames [] s = s := rfl

theorem processFrames_cons (f : Frame) (fs : List Frame) (s : ClientState) :
    processFrames (f :: fs) s = processFrames fs (onmessage f s) := rfl

theorem onmessage_messages (f : Frame) (s : ClientState) :
    (onmessage f s).messages = s.messages ++ (parseFrame f).toList := by
  unfold onmessage
  cases h : parseFrame f <;> simp [h]

/-- The buffer after delivering a frame sequence: everything already there,
followed by every decodable frame, in arrival order. -/
theorem processFrames_messages (fs : List Frame) (s : ClientState) :
    (processFrames fs s).messages = s.messages ++ fs.filterMap parseFrame := by
  induction fs generalizing s with
  | nil => simp [processFrames_nil]
  | cons f fs ih =>
      rw [processFrames_cons, ih, onmessage_messages]
      cases h : parseFrame f <;> simp [List.filterMap_cons, h]

/-- Decoded frames plus decode failures account for every inbound frame. -/
theorem decode_count (fs : List Frame) :
    (fs.filterMap parseFrame).length
      + (fs.filter fun f => (parseFrame f).isNone).length = fs.length := by
  induction fs with
  | nil => rfl
  | cons f fs ih =>
      cases h : parseFrame f <;>
        simp [List.filterMap_cons, List.filter_cons, h] <;> omega

/- ### Claim C1 -/

/-- Claim C1, as stated, is false on the code: after `disconnect` (which does
cancel the pending timer synchronously — first conjunct), the `close` event
of the socket `disconnect` just closed still runs the registered `onclose`
handler, which finds `reconnectTimeoutRef.current` null and schedules a new
reconnect timer (second conjunct); when that timer fires, `connect` runs and
opens a fresh transport (third conjunct).  So a transport event from the
superseded attempt does mutate the scope and does reopen the connection. -/
theorem C1_counterexample :
    (disconnect (onopen 0 (connect none (initState none)))).reconnectTimeout = none
    ∧ (onclose 0 none (disconnect (onopen 0 (connect none (initState none))))).reconnectTimeout
        = some { agentId := none, fired := false }
    ∧ (timerFire (onclose 0 none
        (disconnect (onopen 0 (connect none (initState none)))))).wsRef.isSome = true := by
  decide

/-- Claim C1 amended: `disconnect` does cancel any pending reconnect timer
synchronously, nulls the socket reference and clears the connected flag; but
late `close` events from the superseded socket are NOT discarded — for every
state, a `close` event arriving after `disconnect` schedules a fresh
reconnect timer, and that timer's firing reopens a connection. -/
theorem C1_amended (s : ClientState) (i : Nat) (aid : Option String) :
    (disconnect s).reconnectTimeout = none
    ∧ (disconnect s).wsRef = none
    ∧ (disconnect s).isConnected = false
    ∧ (onclose i aid (disconnect s)).reconnectTimeout = some { agentId := aid, fired := false }
    ∧ (timerFire (onclose i aid (disconnect s))).wsRef.isSome = true := by
  refine ⟨rfl, rfl, rfl, rfl, ?_⟩
  simp [disconnect, onclose, timerFire, connect]

/- ### Claim C2 -/

/-- Claim C2 is false on the code: the buffer is unbounded and nothing is
ever evicted.  In the spec's own test scenario (capacity 2, frames a, b, c)
the buffer ends as [a, b, c] — three entries, the oldest still present —
instead of [b, c]; and with the spec's default capacity 500, delivering 501
frames leaves 501 entries in the buffer. -/
theorem C2_counterexample :
    (processFrames
        [Frame.good (sampleMsg "a"), Frame.good (sampleMsg "b"), Frame.good (sampleMsg "c")]
        (initState none)).messages
      = [sampleMsg "a", sampleMsg "b", sampleMsg "c"]
    ∧ (processFrames (List.replicate 501 (Frame.good (sampleMsg "a")))
        (initState none)).messages.length = 501 := by
  constructor
  · rfl
  · rw [processFrames_messages,
      List.filterMap_replicate_of_some
        (show parseFrame (Frame.good (sampleMsg "a")) = some (sampleMsg "a") from rfl),
      show (initState none).messages = [] from rfl, List.nil_append, List.length_replicate]

/-- Claim C2 amended: the message buffer is unbounded — every decodable
frame is appended at the tail and no entry is ever evicted, so after
delivering a frame sequence the buffer holds all previous entries followed
by all newly decoded ones in arrival order, and its length grows by the
number of decodable frames. -/
theorem C2_amended (fs : List Frame) (s : ClientState) :
    (processFrames fs s).messages = s.messages ++ fs.filterMap parseFrame
    ∧ (processFrames fs s).messages.length
        = s.messages.length + (fs.filterMap parseFrame).length := by
  refine ⟨processFrames_messages fs s, ?_⟩
  rw [processFrames_messages]
  simp


/- ### Claim C3 -/

/-- Claim C3 is false on the code: `sendMessage` on a not-open (here:
never-connected) scope records the message nowhere — nothing is transmitted
and nothing is queued, only a `console.warn` runs (first two conjuncts) —
and after the next `connect`/`open` transition nothing is flushed to the
wire (third conjunct).  There is no outbound queue, no backpressure
notification, and no failing "unconnected scope" condition: the call
returns normally. -/
theorem C3_counterexample :
    (sendMessage (sampleMsg "x") (initState none)).sent = []
    ∧ (sendMessage (sampleMsg "x") (initState none))
        = { initState none with warnings := 1 }
    ∧ (onopen 0 (connect none (sendMessage (sampleMsg "x") (initState none)))).sent = [] := by
  decide

/-- Claim C3 amended: `sendMessage` transmits immediately when the socket is
`OPEN`; in every other case the message is silently discarded with a console
warning — no outbound queue exists (the buffer, socket reference and timer
are untouched, and the message is recorded nowhere), the `open` transition
flushes nothing, and a send on a never-connected scope returns normally
instead of failing. -/
theorem C3_amended (m : WebSocketMessage) (s : ClientState) (i : Nat) :
    (sendMessage m s).messages = s.messages
    ∧ (sendMessage m s).wsRef = s.wsRef
    ∧ (sendMessage m s).reconnectTimeout = s.reconnectTimeout
    ∧ (sendMessage m s).sent
        = (if s.wsRef.map Socket.readyState = some ReadyState.OPEN then s.sent ++ [m] else s.sent)
    ∧ (sendMessage m s).warnings
        = (if s.wsRef.map Socket.readyState = some ReadyState.OPEN then s.warnings
           else s.warnings + 1)
    ∧ (onopen i s).sent = s.sent := by
  unfold sendMessage onopen
  by_cases h : s.wsRef.map Socket.readyState = some ReadyState.OPEN <;>
    simp [h]

/- ### Claim C4 -/

/-- Claim C4 is false on the code: the idempotence guard checks only
`readyState === OPEN`, so a second `connect` while the first socket is still
`Connecting` is not a no-op — it constructs a second transport (the fresh-id
supply `nextId`, incremented exactly once per `new WebSocket(...)`, ends at
2) and overwrites the reference with a different socket. -/
theorem C4_counterexample :
    (connect none (connect none (initState none))).nextId = 2
    ∧ (connect none (connect none (initState none))).wsRef
        ≠ (connect none (initState none)).wsRef := by
  decide

/-- Claim C4 amended: `connect` is a no-op only when the current socket's
state is `Open`; in every other case — including `Connecting`, where the
claim demanded a no-op — it opens exactly one new transport at the endpoint
derived from the scope, in `Connecting` state with its handlers registered,
and stores it in the socket reference. -/
theorem C4_amended (aid : Option String) (s : ClientState) :
    connect aid s =
      if s.wsRef.map Socket.readyState = some ReadyState.OPEN then s
      else
        { s with
          wsRef := some
            { id := s.nextId
              agentId := aid
              url := wsUrl s.envWsUrl aid
              readyState := ReadyState.CONNECTING }
          nextId := s.nextId + 1 } := by
  unfold connect
  by_cases h : s.wsRef.map Socket.readyState = some ReadyState.OPEN <;> simp [h]

/- ### Claim C5 -/

/-- Claim C5 is false on the code: with the session provider reporting no
credential (`isAuthenticated = false`), `connect` still opens the transport
(the socket reference becomes non-null) — there is no fail-fast
"unauthenticated" path and no credential is consumed when opening. -/
theorem C5_counterexample :
    isAuthenticated { user := none } = false
    ∧ ((connectApp none
        { auth := { user := none }, wsc := initState none }).wsc.wsRef).isSome = true := by
  decide

/-- Claim C5 amended: `connect` never consults the session provider — its
effect on the client state is identical for any two auth states, the auth
state itself is untouched, and the transport is opened (when the guard
allows) without any bearer credential and without an unauthenticated
failure path. -/
theorem C5_amended (a b : AuthState) (aid : Option String) (s : ClientState) :
    (connectApp aid { auth := a, wsc := s }).wsc = connect aid s
    ∧ (connectApp aid { auth := a, wsc := s }).wsc
        = (connectApp aid { auth := b, wsc := s }).wsc
    ∧ (connectApp aid { auth := a, wsc := s }).auth = a := by
  exact ⟨rfl, rfl, rfl⟩

/- ### Claim C6 -/

/-- Claim C6 is false on the code: after scope "agent-1" has an open socket,
`connect` for the distinct scope "agent-2" is a no-op — scope "agent-2"
never gets a transport of its own (the stored socket still belongs to
"agent-1"), and all scopes share the single `wsRef`/`messages`/`isConnected`
cell, so a frame arriving on "agent-1"'s socket lands in the one buffer
every consumer reads. -/
theorem C6_counterexample :
    connect (some "agent-2") (onopen 0 (connect (some "agent-1") (initState none)))
      = onopen 0 (connect (some "agent-1") (initState none))
    ∧ (onopen 0 (connect (some "agent-1") (initState none))).wsRef.map Socket.agentId
        = some (some "agent-1") := by
  decide

/-- Claim C6 amended: scopes are not independent — there is a single shared
connection slot, buffer and connected flag.  While any socket is open,
`connect` for every scope (including one different from the scope that
opened the socket) is a no-op, and an inbound frame mutates the one shared
buffer that consumers of every scope observe. -/
theorem C6_amended (s : ClientState) (aid : Option String) (f : Frame)
    (h : s.wsRef.map Socket.readyState = some ReadyState.OPEN) :
    connect aid s = s
    ∧ (onmessage f s).messages = s.messages ++ (parseFrame f).toList := by
  refine ⟨?_, onmessage_messages f s⟩
  unfold connect
  rw [if_pos h]

/-- Witness for C6_amended at a concrete open state of scope "agent-1" and
the distinct scope "agent-2". -/
theorem C6_amended_witness :
    connect (some "agent-2") (onopen 0 (connect (some "agent-1") (initState none)))
      = onopen 0 (connect (some "agent-1") (initState none))
    ∧ (onmessage (Frame.good (sampleMsg "a"))
          (onopen 0 (connect (some "agent-1") (initState none)))).messages
        = (onopen 0 (connect (some "agent-1") (initState none))).messages
          ++ (parseFrame (Frame.good (sampleMsg "a"))).toList :=
  C6_amended (onopen 0 (connect (some "agent-1") (initState none)))
    (some "agent-2") (Frame.good (sampleMsg "a")) (by decide)


/- ### Claim C7 -/

/-- Claim C7 is false on the code: no client-assigned `sequence` exists —
the stored envelope is the decoded frame passed through unchanged (its only
fields are `type`, `data`, `timestamp`).  Delivering the same frame twice
yields two equal buffer entries, so the envelopes a subscriber observes
cannot carry strictly increasing sequence values (those would make all
observed envelopes pairwise distinct, and these two are not). -/
theorem C7_counterexample :
    (processFrames [Frame.good (sampleMsg "a"), Frame.good (sampleMsg "a")]
        (initState none)).messages
      = [sampleMsg "a", sampleMsg "a"]
    ∧ ¬ List.Pairwise (fun a b => a ≠ b)
        (processFrames [Frame.good (sampleMsg "a"), Frame.good (sampleMsg "a")]
          (initState none)).messages := by
  constructor
  · rfl
  · intro h
    rw [show (processFrames [Frame.good (sampleMsg "a"), Frame.good (sampleMsg "a")]
        (initState none)).messages = [sampleMsg "a", sampleMsg "a"] from rfl] at h
    exact (List.pairwise_cons.mp h).1 (sampleMsg "a") (by simp) rfl

/-- Claim C7 amended: the client assigns no sequence numbers and the
envelope is the decoded frame unchanged; what holds is the counting and
ordering part — a subscriber present from the first frame observes exactly
N minus the number of decode failures envelopes, appended in arrival
order. -/
theorem C7_amended (fs : List Frame) (s : ClientState) :
    (processFrames fs s).messages = s.messages ++ fs.filterMap parseFrame
    ∧ (fs.filterMap parseFrame).length
        = fs.length - (fs.filter fun f => (parseFrame f).isNone).length := by
  refine ⟨processFrames_messages fs s, ?_⟩
  have h := decode_count fs
  omega

/- ### Claim C8 -/

/-- Claim C8 is false on the code in its reporting part: a malformed frame
arriving on an open connection is dropped (buffer unchanged) and the scope
stays connected, but the failure goes only to `console.error` — nothing
subscriber-visible (`messages`, `isConnected`) changes, so no decode-error
event reaches subscribers. -/
theorem C8_counterexample :
    (onmessage (Frame.bad "oops") (onopen 0 (connect none (initState none)))).messages = []
    ∧ (onmessage (Frame.bad "oops") (onopen 0 (connect none (initState none)))).isConnected
        = true
    ∧ (onmessage (Frame.bad "oops") (onopen 0 (connect none (initState none))))
        = { onopen 0 (connect none (initState none)) with consoleErrors := 1 } := by
  decide

/-- Claim C8 amended: a frame that fails to decode is dropped (never
appended to the buffer) and the connection is untouched (state and transport
unchanged), but the failure is only logged to the browser console — the
entire client state is unchanged except the console-error count; it is not
reported to subscribers and not thrown. -/
theorem C8_amended (raw : String) (s : ClientState) :
    onmessage (Frame.bad raw) s = { s with consoleErrors := s.consoleErrors + 1 } := by
  rfl

/- ### Claim C9 -/

/-- Claim C9: the endpoint is a function of the scope — whenever `connect`
actually opens a transport, an agent-scoped connect opens it at the
per-entity path parameterized by the agent identifier under the configured
base address, and a global connect opens it at the global path under the
same base address. -/
theorem C9_endpoint (s : ClientState) (aid : String)
    (h : ¬ s.wsRef.map Socket.readyState = some ReadyState.OPEN) :
    (connect (some aid) s).wsRef.map Socket.url
        = some (wsBase s.envWsUrl ++ "/api/agents/" ++ aid ++ "/ws")
    ∧ (connect none s).wsRef.map Socket.url = some (wsBase s.envWsUrl ++ "/api/ws") := by
  unfold connect wsUrl
  rw [if_neg h, if_neg h]
  exact ⟨rfl, rfl⟩

/-- Witness for C9_endpoint: from the initial state with the default base
address, connecting to scope "agent-42" targets
ws://localhost:5000/api/agents/agent-42/ws and the global connect targets
ws://localhost:5000/api/ws. -/
theorem C9_endpoint_witness :
    (connect (some "agent-42") (initState none)).wsRef.map Socket.url
        = some (wsBase (initState none).envWsUrl ++ "/api/agents/" ++ "agent-42" ++ "/ws")
    ∧ (connect none (initState none)).wsRef.map Socket.url
        = some (wsBase (initState none).envWsUrl ++ "/api/ws") :=
  C9_endpoint (initState none) "agent-42" (by decide)

/- ### Claim C10 -/

/-- Claim C10: `sendMessage` on a socket that is not open (or absent) never
throws — it is a total function returning normally — and leaves every piece
of client state unchanged: the message buffer, the connected flag, the
socket reference, the reconnect timer, and the wire (the message is
discarded, never transmitted). -/
theorem C10_send_noop (m : WebSocketMessage) (s : ClientState)
    (h : ¬ s.wsRef.map Socket.readyState = some ReadyState.OPEN) :
    (sendMessage m s).messages = s.messages
    ∧ (sendMessage m s).isConnected = s.isConnected
    ∧ (sendMessage m s).wsRef = s.wsRef
    ∧ (sendMessage m s).reconnectTimeout = s.reconnectTimeout
    ∧ (sendMessage m s).sent = s.sent := by
  unfold sendMessage
  rw [if_neg h]
  exact ⟨rfl, rfl, rfl, rfl, rfl⟩

/-- Witness for C10_send_noop at the never-connected initial state. -/
theorem C10_send_noop_witness :
    (sendMessage (sampleMsg "x") (initState none)).messages = (initState none).messages
    ∧ (sendMessage (sampleMsg "x") (initState none)).isConnected = (initState none).isConnected
    ∧ (sendMessage (sampleMsg "x") (initState none)).wsRef = (initState none).wsRef
    ∧ (sendMessage (sampleMsg "x") (initState none)).reconnectTimeout
        = (initState none).reconnectTimeout
    ∧ (sendMessage (sampleMsg "x") (initState none)).sent = (initState none).sent :=
  C10_send_noop (sampleMsg "x") (initState none) (by decide)

